import Mathlib

/-!
Verification of the cryptographic engine of the ipsec-vpn repository
(`pkg/crypto/crypto.go`).

The engine composes external cryptographic primitives (AES-256-GCM and
ChaCha20-Poly1305 AEADs from the Go standard library, Kyber-768/1024 KEMs
from the circl library) into self-testing executors.  Those primitives are
third-party library code, so they are embedded abstractly: an `AEAD` is a
record of fixed sizes together with `Seal`/`Open` functions, a `KEMScheme`
is a record of fixed sizes together with key generation, encapsulation and
decapsulation.  The contracts the Go libraries document (sealing adds
exactly the tag, opening a sealed message returns it, decapsulating an
encapsulation returns the shared secret, fixed output sizes) are the
`AEAD.Sound` / `KEMScheme.Sound` predicates; concrete executable instances
satisfying them are given further below for evaluation.

Randomness (`crypto/rand`, key-pair coins) is passed in explicitly: every
random byte string the Go code draws is a parameter of the embedding.
Bytes are modelled as `List Nat`.  The Go functions return
`(*TestResult, error)` with exactly one of the two non-nil; this is
embedded as `Except String TestResult`.  Timing fields of `TestResult`
are omitted: no property below concerns them.
-/

namespace IpsecVpn

/-- `Algorithm` record of `crypto.go` (field names kept from the source). -/
structure Algorithm where
  Name : String
  Description : String
  PostQuantum : Bool
deriving Repr, DecidableEq

/-- `TestResult` of `crypto.go`, without the three duration fields. -/
structure TestResult where
  Algorithm : String
  Encrypted : List Nat
  DecryptionSuccessful : Bool
deriving Repr, DecidableEq

/-- Abstract model of a Go AEAD (`cipher.AEAD`): fixed key, nonce and tag
sizes, a `seal` producing `ciphertext‖tag` and an `aopen` that either
recovers the plaintext or fails (`nil, error` in Go). -/
structure AEAD where
  keySize : Nat
  nonceSize : Nat
  tagSize : Nat
  Seal : List Nat → List Nat → List Nat → List Nat
  Open : List Nat → List Nat → List Nat → Option (List Nat)

/-- The contract the Go AEAD implementations satisfy: sealing adds exactly
the tag length, and opening a sealed message under the same key and a
nonce of the correct size returns the plaintext. -/
structure AEAD.Sound (A : AEAD) : Prop where
  seal_length : ∀ k n m, (A.Seal k n m).length = m.length + A.tagSize
  open_seal : ∀ k n m, n.length = A.nonceSize → A.Open k n (A.Seal k n m) = some m

/-- Abstract model of a circl `kem.Scheme`: fixed ciphertext and
shared-secret sizes, key generation and encapsulation driven by explicit
random coins, and decapsulation that may fail. -/
structure KEMScheme where
  ciphertextSize : Nat
  sharedSecretSize : Nat
  keyGen : List Nat → List Nat × List Nat
  encaps : List Nat → List Nat → List Nat × List Nat
  decaps : List Nat → List Nat → Option (List Nat)

/-- The contract the circl KEM schemes satisfy: encapsulation outputs have
the advertised fixed sizes, and decapsulating an encapsulation made
against the matching public key returns the encapsulated shared secret. -/
structure KEMScheme.Sound (S : KEMScheme) : Prop where
  ct_size : ∀ pk c, ((S.encaps pk c).1).length = S.ciphertextSize
  ss_size : ∀ pk c, ((S.encaps pk c).2).length = S.sharedSecretSize
  decaps_encaps : ∀ kg c,
    S.decaps (S.keyGen kg).2 (S.encaps (S.keyGen kg).1 c).1 = some (S.encaps (S.keyGen kg).1 c).2

/-- `ListClassicAlgorithms` of `crypto.go`. -/
def ListClassicAlgorithms : List Algorithm :=
  [{ Name := "aes256gcm",
     Description := "AES-256 in GCM mode - Strong symmetric encryption",
     PostQuantum := false },
   { Name := "chacha20poly1305",
     Description := "ChaCha20-Poly1305 - Fast and secure symmetric encryption",
     PostQuantum := false }]

/-- `ListPostQuantumAlgorithms` of `crypto.go`. -/
def ListPostQuantumAlgorithms : List Algorithm :=
  [{ Name := "kyber768",
     Description := "Kyber-768 - NIST selected post-quantum key encapsulation mechanism",
     PostQuantum := true },
   { Name := "kyber1024",
     Description := "Kyber-1024 - Higher security level post-quantum key encapsulation mechanism",
     PostQuantum := true },
   { Name := "hybrid-kyber768-aes256gcm",
     Description := "Hybrid Kyber-768 + AES-256-GCM - Post-quantum security with classical fallback",
     PostQuantum := true }]

/-- The names the `TestAlgorithm` switch dispatches on: all registered
classic and post-quantum algorithm names. -/
def registeredAlgorithmNames : List String :=
  (ListClassicAlgorithms ++ ListPostQuantumAlgorithms).map Algorithm.Name

/-- Decryption phase of `testAES256GCM` / `testChaCha20Poly1305`
(`crypto.go` lines 194-211 and 242-259, which are textually identical):
slice the nonce off the front of the self-produced ciphertext and open the
rest.  A buffer shorter than the nonce is a fatal error; an opening
failure is a soft failure; otherwise the success flag records whether the
recovered plaintext equals the input. -/
def classicSelfDecrypt (A : AEAD) (key ciphertext data : List Nat) (result : TestResult) :
    Except String TestResult :=
  if ciphertext.length < A.nonceSize then
    Except.error "ciphertext too short"
  else
    let nonceDecrypt := ciphertext.take A.nonceSize
    let ciphertextDecrypt := ciphertext.drop A.nonceSize
    match A.Open key nonceDecrypt ciphertextDecrypt with
    | none => Except.ok { result with DecryptionSuccessful := false }
    | some plaintext =>
        Except.ok { result with DecryptionSuccessful := plaintext == data }

/-- `testAES256GCM` of `crypto.go`: seal the data under a fresh random
`key` with a fresh random `nonce` (both passed explicitly here), store
`nonce ++ sealed` as the serialized ciphertext, then run the decryption
self-test on that buffer. -/
def testAES256GCM (A : AEAD) (key nonce data : List Nat) (result : TestResult) :
    Except String TestResult :=
  let ciphertext := nonce ++ A.Seal key nonce data
  let result := { result with Encrypted := ciphertext }
  classicSelfDecrypt A key ciphertext data result

/-- `testChaCha20Poly1305` of `crypto.go`: the same construction as
`testAES256GCM` with the ChaCha20-Poly1305 AEAD. -/
def testChaCha20Poly1305 (A : AEAD) (key nonce data : List Nat) (result : TestResult) :
    Except String TestResult :=
  let ciphertext := nonce ++ A.Seal key nonce data
  let result := { result with Encrypted := ciphertext }
  classicSelfDecrypt A key ciphertext data result

/-- Decryption phase of `testKyber` (`crypto.go` lines 301-345): slice the
KEM ciphertext off the front (fatal if too short), decapsulate (soft
failure), slice the nonce off the remainder (fatal if too short), open the
rest under the decapsulated secret (soft failure), and compare with the
input. -/
def kyberSelfDecrypt (S : KEMScheme) (A : AEAD) (priv encrypted data : List Nat)
    (result : TestResult) : Except String TestResult :=
  if encrypted.length < S.ciphertextSize then
    Except.error "ciphertext too short"
  else
    let kyberCiphertext := encrypted.take S.ciphertextSize
    let remaining := encrypted.drop S.ciphertextSize
    match S.decaps priv kyberCiphertext with
    | none => Except.ok { result with DecryptionSuccessful := false }
    | some decapsulatedSecret =>
        if remaining.length < A.nonceSize then
          Except.error "remaining ciphertext too short"
        else
          let nonceDecrypt := remaining.take A.nonceSize
          let ciphertextDecrypt := remaining.drop A.nonceSize
          match A.Open decapsulatedSecret nonceDecrypt ciphertextDecrypt with
          | none => Except.ok { result with DecryptionSuccessful := false }
          | some plaintext =>
              Except.ok { result with DecryptionSuccessful := plaintext == data }

/-- `testKyber` of `crypto.go`: generate a key pair, encapsulate, use the
shared secret directly as the AEAD key to seal the data, serialize as
`kemCiphertext ++ nonce ++ sealed`, then run the decryption self-test.
`kgCoins`/`encCoins` are the random coins of key generation and
encapsulation, `nonce` the random AEAD nonce. -/
def testKyber (S : KEMScheme) (A : AEAD) (kgCoins encCoins nonce data : List Nat)
    (result : TestResult) : Except String TestResult :=
  let privateKey := (S.keyGen kgCoins).2
  let public := (S.keyGen kgCoins).1
  let ciphertext := (S.encaps public encCoins).1
  let sharedSecret := (S.encaps public encCoins).2
  let encryptedData := A.Seal sharedSecret nonce data
  let encrypted := ciphertext ++ (nonce ++ encryptedData)
  let result := { result with Encrypted := encrypted }
  kyberSelfDecrypt S A privateKey encrypted data result

/-- Serialization of the hybrid executor (`crypto.go` line 415):
`kemCiphertext ++ keyNonce ++ wrappedKey ++ dataNonce ++ dataCiphertext`. -/
def hybridSerialize (kemCiphertext keyNonce wrappedKey dataNonce dataCiphertext : List Nat) :
    List Nat :=
  kemCiphertext ++ (keyNonce ++ (wrappedKey ++ (dataNonce ++ dataCiphertext)))

/-- The field slicing performed by the decryption phase of
`testHybridKyberAES` (`crypto.go` lines 420-489), as a pure function of
the buffer: KEM ciphertext (fixed KEM size), key-wrap nonce (AEAD nonce
size), wrapped key with tag (the hard-coded `32 + 16` of line 454), data
nonce (AEAD nonce size), and the rest as the data ciphertext. -/
def hybridParse (S : KEMScheme) (A : AEAD) (buf : List Nat) :
    List Nat × List Nat × List Nat × List Nat × List Nat :=
  let kemCiphertext := buf.take S.ciphertextSize
  let r1 := buf.drop S.ciphertextSize
  let keyNonce := r1.take A.nonceSize
  let r2 := r1.drop A.nonceSize
  let wrappedKey := r2.take (32 + 16)
  let r3 := r2.drop (32 + 16)
  let dataNonce := r3.take A.nonceSize
  let dataCiphertext := r3.drop A.nonceSize
  (kemCiphertext, keyNonce, wrappedKey, dataNonce, dataCiphertext)

/-- Decryption phase of `testHybridKyberAES` (`crypto.go` lines 417-499):
slice the KEM ciphertext (fatal if short), decapsulate (soft failure),
slice the key-wrap nonce (fatal if short), slice the wrapped key of the
hard-coded size `32 + 16` (fatal if short), unwrap the symmetric key under
the decapsulated secret (soft failure), rebuild the hybrid key, slice the
data nonce (fatal if short), open the payload under the first 32 bytes of
the rebuilt hybrid key (soft failure), and compare with the input. -/
def hybridSelfDecrypt (S : KEMScheme) (A : AEAD) (priv encrypted data : List Nat)
    (result : TestResult) : Except String TestResult :=
  if encrypted.length < S.ciphertextSize then
    Except.error "ciphertext too short"
  else
    let kyberCiphertext := encrypted.take S.ciphertextSize
    let remaining := encrypted.drop S.ciphertextSize
    match S.decaps priv kyberCiphertext with
    | none => Except.ok { result with DecryptionSuccessful := false }
    | some decapsulatedSecret =>
        if remaining.length < A.nonceSize then
          Except.error "remaining ciphertext too short"
        else
          let aesKeyNonceDecrypt := remaining.take A.nonceSize
          let remaining1 := remaining.drop A.nonceSize
          if remaining1.length < 32 + 16 then
            Except.error "remaining ciphertext too short for AES key"
          else
            let encryptedAesKeyDecrypt := remaining1.take (32 + 16)
            let remaining2 := remaining1.drop (32 + 16)
            match A.Open decapsulatedSecret aesKeyNonceDecrypt encryptedAesKeyDecrypt with
            | none => Except.ok { result with DecryptionSuccessful := false }
            | some decryptedAesKey =>
                let hybridKeyDecrypt := decapsulatedSecret ++ decryptedAesKey
                if remaining2.length < A.nonceSize then
                  Except.error "remaining ciphertext too short for data nonce"
                else
                  let nonceDecrypt := remaining2.take A.nonceSize
                  let ciphertextDecrypt := remaining2.drop A.nonceSize
                  match A.Open (hybridKeyDecrypt.take 32) nonceDecrypt ciphertextDecrypt with
                  | none => Except.ok { result with DecryptionSuccessful := false }
                  | some plaintext =>
                      Except.ok { result with DecryptionSuccessful := plaintext == data }

/-- `testHybridKyberAES` of `crypto.go`: generate a KEM key pair and an
independent 32-byte AES key (`aesKey`, random), encapsulate, build the
hybrid key `sharedSecret ++ aesKey`, seal the data under its first 32
bytes with the random `nonce`, wrap the AES key under the shared secret
alone with the random `aesKeyNonce`, serialize all five components, then
run the decryption self-test. -/
def testHybridKyberAES (S : KEMScheme) (A : AEAD)
    (kgCoins aesKey encCoins nonce aesKeyNonce data : List Nat) (result : TestResult) :
    Except String TestResult :=
  let privateKey := (S.keyGen kgCoins).2
  let public := (S.keyGen kgCoins).1
  let ciphertext := (S.encaps public encCoins).1
  let sharedSecret := (S.encaps public encCoins).2
  let hybridKey := sharedSecret ++ aesKey
  let encryptedData := A.Seal (hybridKey.take 32) nonce data
  let encryptedAesKey := A.Seal sharedSecret aesKeyNonce aesKey
  let encrypted := hybridSerialize ciphertext aesKeyNonce encryptedAesKey nonce encryptedData
  let result := { result with Encrypted := encrypted }
  hybridSelfDecrypt S A privateKey encrypted data result

/-- The external cryptographic primitives `crypto.go` imports: the two
AEADs and the two Kyber parameter sets.  The hybrid executor reuses the
AES-256-GCM AEAD and the Kyber-768 scheme. -/
structure Primitives where
  gcm : AEAD
  chacha : AEAD
  kyber768 : KEMScheme
  kyber1024 : KEMScheme

/-- The random byte strings one invocation of `TestAlgorithm` draws from
`crypto/rand`: the symmetric key (AES, ChaCha or the hybrid AES key), the
data nonce, the hybrid key-wrap nonce, and the KEM coins. -/
structure Entropy where
  key : List Nat
  nonce : List Nat
  keyNonce : List Nat
  kgCoins : List Nat
  encCoins : List Nat

/-- `TestAlgorithm` of `crypto.go`: initialize the result with the
algorithm name, then dispatch on the name (Go `switch`, an equality
chain); unresolved names yield the fatal "unsupported algorithm" error. -/
def TestAlgorithm (P : Primitives) (E : Entropy) (algorithm : String) (data : List Nat) :
    Except String TestResult :=
  let result : TestResult :=
    { Algorithm := algorithm, Encrypted := [], DecryptionSuccessful := false }
  if algorithm == "aes256gcm" then
    testAES256GCM P.gcm E.key E.nonce data result
  else if algorithm == "chacha20poly1305" then
    testChaCha20Poly1305 P.chacha E.key E.nonce data result
  else if algorithm == "kyber768" then
    testKyber P.kyber768 P.gcm E.kgCoins E.encCoins E.nonce data result
  else if algorithm == "kyber1024" then
    testKyber P.kyber1024 P.gcm E.kgCoins E.encCoins E.nonce data result
  else if algorithm == "hybrid-kyber768-aes256gcm" then
    testHybridKyberAES P.kyber768 P.gcm E.kgCoins E.key E.encCoins E.nonce E.keyNonce data result
  else
    Except.error ("unsupported algorithm: " ++ algorithm)

/-- The two persisted default-algorithm configuration keys of the external
settings store (viper), as far as the engine touches it. -/
structure Settings where
  defaultClassic : Option String
  defaultPostQuantum : Option String
deriving Repr, DecidableEq

/-- `SetDefaultAlgorithm` of `crypto.go`: validate the name against the
corresponding list; if invalid return the "invalid algorithm" error and
leave the store untouched, otherwise write the corresponding key.  The
store is passed and returned explicitly (viper is global state in Go);
the second component is the returned error. -/
def SetDefaultAlgorithm (algorithm : String) (postQuantum : Bool) (s : Settings) :
    Settings × Option String :=
  let valid :=
    if postQuantum then
      ListPostQuantumAlgorithms.any (fun algo => algo.Name == algorithm)
    else
      ListClassicAlgorithms.any (fun algo => algo.Name == algorithm)
  if !valid then
    (s, some ("invalid algorithm: " ++ algorithm))
  else if postQuantum then
    ({ s with defaultPostQuantum := some algorithm }, none)
  else
    ({ s with defaultClassic := some algorithm }, none)

/-- `GetDefaultAlgorithm` of `crypto.go`: read the corresponding key,
falling back to a hard-coded default per category when unset. -/
def GetDefaultAlgorithm (postQuantum : Bool) (s : Settings) : String :=
  if postQuantum then
    match s.defaultPostQuantum with
    | none => "kyber768"
    | some defaultAlgo => defaultAlgo
  else
    match s.defaultClassic with
    | none => "aes256gcm"
    | some defaultAlgo => defaultAlgo

/-- The payload-key derivation of the Hybrid Composer as the spec words
it: concatenate `sharedSecret ∥ symmetricKey` and take the first
AEAD-key-size (32) bytes. -/
def specPayloadKey (sharedSecret symmetricKey : List Nat) : List Nat :=
  (sharedSecret ++ symmetricKey).take 32

/-- Shared round-trip lemma for the classic decryption phase: on the
buffer the encryption phase produced, the self-test succeeds. -/
theorem classicSelfDecrypt_roundtrip (A : AEAD) (hA : A.Sound) (key nonce data : List Nat)
    (r : TestResult) (hn : nonce.length = A.nonceSize) :
    classicSelfDecrypt A key (nonce ++ A.Seal key nonce data) data r
      = Except.ok { r with DecryptionSuccessful := true } := by
  have hlen : ¬ ((nonce ++ A.Seal key nonce data).length < A.nonceSize) := by
    rw [List.length_append, hn]; omega
  simp only [classicSelfDecrypt, if_neg hlen, List.take_left' hn, List.drop_left' hn,
    hA.open_seal key nonce data hn]
  simp

/-- Full behaviour of `testAES256GCM` under the AEAD contract. -/
theorem testAES256GCM_spec (A : AEAD) (hA : A.Sound) (key nonce data : List Nat)
    (r : TestResult) (hn : nonce.length = A.nonceSize) :
    testAES256GCM A key nonce data r
      = Except.ok { r with Encrypted := nonce ++ A.Seal key nonce data,
                           DecryptionSuccessful := true } := by
  simp only [testAES256GCM]
  rw [classicSelfDecrypt_roundtrip A hA key nonce data _ hn]

/-- Full behaviour of `testChaCha20Poly1305` under the AEAD contract. -/
theorem testChaCha20Poly1305_spec (A : AEAD) (hA : A.Sound) (key nonce data : List Nat)
    (r : TestResult) (hn : nonce.length = A.nonceSize) :
    testChaCha20Poly1305 A key nonce data r
      = Except.ok { r with Encrypted := nonce ++ A.Seal key nonce data,
                           DecryptionSuccessful := true } := by
  simp only [testChaCha20Poly1305]
  rw [classicSelfDecrypt_roundtrip A hA key nonce data _ hn]

/-- Full behaviour of `testKyber` under the AEAD and KEM contracts. -/
theorem testKyber_spec (S : KEMScheme) (A : AEAD) (hS : S.Sound) (hA : A.Sound)
    (kgCoins encCoins nonce data : List Nat) (r : TestResult)
    (hn : nonce.length = A.nonceSize) :
    testKyber S A kgCoins encCoins nonce data r
      = Except.ok { r with
          Encrypted := (S.encaps (S.keyGen kgCoins).1 encCoins).1 ++
            (nonce ++ A.Seal (S.encaps (S.keyGen kgCoins).1 encCoins).2 nonce data),
          DecryptionSuccessful := true } := by
  have hct : ((S.encaps (S.keyGen kgCoins).1 encCoins).1).length = S.ciphertextSize :=
    hS.ct_size _ _
  have h1 : ¬ (((S.encaps (S.keyGen kgCoins).1 encCoins).1 ++
      (nonce ++ A.Seal (S.encaps (S.keyGen kgCoins).1 encCoins).2 nonce data)).length
        < S.ciphertextSize) := by
    rw [List.length_append, hct]; omega
  have h2 : ¬ ((nonce ++ A.Seal (S.encaps (S.keyGen kgCoins).1 encCoins).2 nonce data).length
        < A.nonceSize) := by
    rw [List.length_append, hn]; omega
  simp only [testKyber, kyberSelfDecrypt, if_neg h1, List.take_left' hct, List.drop_left' hct,
    hS.decaps_encaps kgCoins encCoins, if_neg h2, List.take_left' hn, List.drop_left' hn,
    hA.open_seal _ nonce data hn]
  simp

/-- Full behaviour of `testHybridKyberAES` under the AEAD and KEM
contracts, assuming a 32-byte AES key, correctly-sized nonces and the
16-byte GCM tag the decoder hard-codes. -/
theorem testHybridKyberAES_spec (S : KEMScheme) (A : AEAD) (hS : S.Sound) (hA : A.Sound)
    (kgCoins aesKey encCoins nonce aesKeyNonce data : List Nat) (r : TestResult)
    (hn : nonce.length = A.nonceSize) (hkn : aesKeyNonce.length = A.nonceSize)
    (hkey : aesKey.length = 32) (hT : A.tagSize = 16) :
    testHybridKyberAES S A kgCoins aesKey encCoins nonce aesKeyNonce data r
      = Except.ok { r with
          Encrypted := hybridSerialize (S.encaps (S.keyGen kgCoins).1 encCoins).1
            aesKeyNonce
            (A.Seal (S.encaps (S.keyGen kgCoins).1 encCoins).2 aesKeyNonce aesKey)
            nonce
            (A.Seal (((S.encaps (S.keyGen kgCoins).1 encCoins).2 ++ aesKey).take 32) nonce data),
          DecryptionSuccessful := true } := by
  have hct : ((S.encaps (S.keyGen kgCoins).1 encCoins).1).length = S.ciphertextSize :=
    hS.ct_size _ _
  have hek : (A.Seal (S.encaps (S.keyGen kgCoins).1 encCoins).2 aesKeyNonce aesKey).length
      = 32 + 16 := by
    rw [hA.seal_length, hkey, hT]
  have h1 : ¬ ((hybridSerialize (S.encaps (S.keyGen kgCoins).1 encCoins).1 aesKeyNonce
      (A.Seal (S.encaps (S.keyGen kgCoins).1 encCoins).2 aesKeyNonce aesKey) nonce
      (A.Seal (((S.encaps (S.keyGen kgCoins).1 encCoins).2 ++ aesKey).take 32) nonce data)).length
        < S.ciphertextSize) := by
    simp only [hybridSerialize, List.length_append, hct]; omega
  have h2 : ¬ ((aesKeyNonce ++
      ((A.Seal (S.encaps (S.keyGen kgCoins).1 encCoins).2 aesKeyNonce aesKey) ++
        (nonce ++
          (A.Seal (((S.encaps (S.keyGen kgCoins).1 encCoins).2 ++ aesKey).take 32)
            nonce data)))).length < A.nonceSize) := by
    simp only [List.length_append, hkn]; omega
  have h3 : ¬ (((A.Seal (S.encaps (S.keyGen kgCoins).1 encCoins).2 aesKeyNonce aesKey) ++
      (nonce ++
        (A.Seal (((S.encaps (S.keyGen kgCoins).1 encCoins).2 ++ aesKey).take 32)
          nonce data))).length < 32 + 16) := by
    simp only [List.length_append, hek]; omega
  have h4 : ¬ ((nonce ++
      (A.Seal (((S.encaps (S.keyGen kgCoins).1 encCoins).2 ++ aesKey).take 32)
        nonce data)).length < A.nonceSize) := by
    simp only [List.length_append, hn]; omega
  simp only [testHybridKyberAES, hybridSelfDecrypt, hybridSerialize, if_neg h1,
    List.take_left' hct, List.drop_left' hct, hS.decaps_encaps kgCoins encCoins,
    if_neg h2, List.take_left' hkn, List.drop_left' hkn, if_neg h3,
    List.take_left' hek, List.drop_left' hek, hA.open_seal _ aesKeyNonce aesKey hkn,
    if_neg h4, List.take_left' hn, List.drop_left' hn, hA.open_seal _ nonce data hn]
  simp
  omega

/-- A concrete executable AEAD satisfying the contract, used to evaluate
the theorems below on concrete inputs: the tag is `tagSize` zero bytes
appended to the message, and opening checks and strips it. -/
def toyAEAD (N T : Nat) : AEAD where
  keySize := 32
  nonceSize := N
  tagSize := T
  Seal := fun _k _n m => m ++ List.replicate T 0
  Open := fun _k _n c =>
    if T ≤ c.length ∧ c.drop (c.length - T) = List.replicate T 0 then
      some (c.take (c.length - T))
    else none

theorem toyAEAD_sound (N T : Nat) : (toyAEAD N T).Sound := by
  constructor
  · intro k n m
    simp [toyAEAD]
  · intro k n m _hn
    simp [toyAEAD, Nat.add_sub_cancel, List.drop_left, List.take_left]

/-- A concrete executable KEM satisfying the contract: the key pair is the
coin string itself, the ciphertext is `K` zero bytes and the shared secret
a fixed 32-byte string. -/
def toyKEM (K : Nat) : KEMScheme where
  ciphertextSize := K
  sharedSecretSize := 32
  keyGen := fun coins => (coins, coins)
  encaps := fun _pk _c => (List.replicate K 0, List.replicate 32 1)
  decaps := fun _priv ct =>
    if ct = List.replicate K 0 then some (List.replicate 32 1) else none

theorem toyKEM_sound (K : Nat) : (toyKEM K).Sound := by
  constructor
  · intro pk c; simp [toyKEM]
  · intro pk c; simp [toyKEM]
  · intro kg c; simp [toyKEM]

/-- Concrete primitive bundle with the real parameter sizes (12-byte GCM
nonce, 16-byte tag) for evaluating the theorems. -/
def toyPrimitives : Primitives where
  gcm := toyAEAD 12 16
  chacha := toyAEAD 12 16
  kyber768 := toyKEM 4
  kyber1024 := toyKEM 8

/-- Concrete entropy with the sizes the Go code draws. -/
def toyEntropy : Entropy where
  key := List.replicate 32 0
  nonce := List.replicate 12 0
  keyNonce := List.replicate 12 1
  kgCoins := [3]
  encCoins := [4]

/-- The registered names, as an explicit list. -/
theorem registeredAlgorithmNames_eq :
    registeredAlgorithmNames =
      ["aes256gcm", "chacha20poly1305", "kyber768", "kyber1024",
       "hybrid-kyber768-aes256gcm"] := rfl

/-- Shared framing lemma: the slicing of the hybrid decryption phase
inverts the hybrid serialization when the fixed-size fields have their
fixed sizes. -/
theorem hybridParse_hybridSerialize (S : KEMScheme) (A : AEAD)
    (kemCiphertext keyNonce wrappedKey dataNonce dataCiphertext : List Nat)
    (h1 : kemCiphertext.length = S.ciphertextSize)
    (h2 : keyNonce.length = A.nonceSize)
    (h3 : wrappedKey.length = 32 + 16)
    (h4 : dataNonce.length = A.nonceSize) :
    hybridParse S A (hybridSerialize kemCiphertext keyNonce wrappedKey dataNonce dataCiphertext)
      = (kemCiphertext, keyNonce, wrappedKey, dataNonce, dataCiphertext) := by
  simp only [hybridParse, hybridSerialize, List.take_left' h1, List.drop_left' h1,
    List.take_left' h2, List.drop_left' h2, List.take_left' h3, List.drop_left' h3,
    List.take_left' h4, List.drop_left' h4]

/-- Dispatch of the `TestAlgorithm` switch, first registered name. -/
theorem TestAlgorithm_aes256gcm (P : Primitives) (E : Entropy) (data : List Nat) :
    TestAlgorithm P E "aes256gcm" data
      = testAES256GCM P.gcm E.key E.nonce data
          { Algorithm := "aes256gcm", Encrypted := [], DecryptionSuccessful := false } := rfl

/-- Dispatch of the `TestAlgorithm` switch, second registered name. -/
theorem TestAlgorithm_chacha20poly1305 (P : Primitives) (E : Entropy) (data : List Nat) :
    TestAlgorithm P E "chacha20poly1305" data
      = testChaCha20Poly1305 P.chacha E.key E.nonce data
          { Algorithm := "chacha20poly1305", Encrypted := [],
            DecryptionSuccessful := false } := rfl

/-- Dispatch of the `TestAlgorithm` switch, third registered name. -/
theorem TestAlgorithm_kyber768 (P : Primitives) (E : Entropy) (data : List Nat) :
    TestAlgorithm P E "kyber768" data
      = testKyber P.kyber768 P.gcm E.kgCoins E.encCoins E.nonce data
          { Algorithm := "kyber768", Encrypted := [], DecryptionSuccessful := false } := rfl

/-- Dispatch of the `TestAlgorithm` switch, fourth registered name. -/
theorem TestAlgorithm_kyber1024 (P : Primitives) (E : Entropy) (data : List Nat) :
    TestAlgorithm P E "kyber1024" data
      = testKyber P.kyber1024 P.gcm E.kgCoins E.encCoins E.nonce data
          { Algorithm := "kyber1024", Encrypted := [], DecryptionSuccessful := false } := rfl

/-- Dispatch of the `TestAlgorithm` switch, fifth registered name. -/
theorem TestAlgorithm_hybrid (P : Primitives) (E : Entropy) (data : List Nat) :
    TestAlgorithm P E "hybrid-kyber768-aes256gcm" data
      = testHybridKyberAES P.kyber768 P.gcm E.kgCoins E.key E.encCoins E.nonce E.keyNonce data
          { Algorithm := "hybrid-kyber768-aes256gcm", Encrypted := [],
            DecryptionSuccessful := false } := rfl

/-- C1: for every registered algorithm name and every plaintext,
`TestAlgorithm` returns a non-nil result with a nil error whose
`DecryptionSuccessful` flag is true: given the documented contracts of the
external AEAD and KEM primitives and correctly-sized random inputs, the
decryption self-test on the serialized ciphertext reproduces the
plaintext. -/
theorem C1_registered_roundtrip (P : Primitives) (E : Entropy) (data : List Nat)
    (hgcm : P.gcm.Sound) (hch : P.chacha.Sound)
    (hk768 : P.kyber768.Sound) (hk1024 : P.kyber1024.Sound)
    (hn : E.nonce.length = P.gcm.nonceSize) (hnc : E.nonce.length = P.chacha.nonceSize)
    (hkn : E.keyNonce.length = P.gcm.nonceSize) (hkey : E.key.length = 32)
    (hT : P.gcm.tagSize = 16)
    (algorithm : String) (halg : algorithm ∈ registeredAlgorithmNames) :
    ∃ r, TestAlgorithm P E algorithm data = Except.ok r ∧ r.DecryptionSuccessful = true := by
  rw [registeredAlgorithmNames_eq] at halg
  simp only [List.mem_cons, List.not_mem_nil, or_false] at halg
  rcases halg with h | h | h | h | h <;> subst h
  · exact ⟨_, (TestAlgorithm_aes256gcm P E data).trans
      (testAES256GCM_spec P.gcm hgcm E.key E.nonce data _ hn), rfl⟩
  · exact ⟨_, (TestAlgorithm_chacha20poly1305 P E data).trans
      (testChaCha20Poly1305_spec P.chacha hch E.key E.nonce data _ hnc), rfl⟩
  · exact ⟨_, (TestAlgorithm_kyber768 P E data).trans
      (testKyber_spec P.kyber768 P.gcm hk768 hgcm E.kgCoins E.encCoins E.nonce data _ hn), rfl⟩
  · exact ⟨_, (TestAlgorithm_kyber1024 P E data).trans
      (testKyber_spec P.kyber1024 P.gcm hk1024 hgcm E.kgCoins E.encCoins E.nonce data _ hn), rfl⟩
  · exact ⟨_, (TestAlgorithm_hybrid P E data).trans
      (testHybridKyberAES_spec P.kyber768 P.gcm hk768 hgcm E.kgCoins E.key E.encCoins
        E.nonce E.keyNonce data _ hn hkn hkey hT), rfl⟩

/-- C1 witness: concrete evaluation on the hybrid algorithm with the
concrete primitives and entropy. -/
theorem C1_registered_roundtrip_witness :
    ∃ r, TestAlgorithm toyPrimitives toyEntropy "hybrid-kyber768-aes256gcm" [1, 2, 3]
        = Except.ok r ∧ r.DecryptionSuccessful = true :=
  C1_registered_roundtrip toyPrimitives toyEntropy [1, 2, 3]
    (toyAEAD_sound 12 16) (toyAEAD_sound 12 16) (toyKEM_sound 4) (toyKEM_sound 8)
    (by decide) (by decide) (by decide) (by decide) rfl
    "hybrid-kyber768-aes256gcm" (by decide)

/-- C2: for every algorithm name that is not one of the five registered
names, `TestAlgorithm` returns a nil result together with the
"unsupported algorithm" error: no partial result is produced. -/
theorem C2_unsupported_name (P : Primitives) (E : Entropy) (algorithm : String)
    (data : List Nat) (h : algorithm ∉ registeredAlgorithmNames) :
    TestAlgorithm P E algorithm data
      = Except.error ("unsupported algorithm: " ++ algorithm) := by
  rw [registeredAlgorithmNames_eq] at h
  simp only [List.mem_cons, List.not_mem_nil, or_false, not_or] at h
  obtain ⟨h1, h2, h3, h4, h5⟩ := h
  simp only [TestAlgorithm, beq_iff_eq]
  rw [if_neg h1, if_neg h2, if_neg h3, if_neg h4, if_neg h5]

/-- C2 witness: concrete evaluation on an unregistered name. -/
theorem C2_unsupported_name_witness :
    TestAlgorithm toyPrimitives toyEntropy "rsa" []
      = Except.error ("unsupported algorithm: " ++ "rsa") :=
  C2_unsupported_name toyPrimitives toyEntropy "rsa" [] (by decide)

/-- C3: the hybrid executor serializes its ciphertext as
`kemCiphertext ∥ keyNonce ∥ wrappedKey ∥ dataNonce ∥ dataCiphertext`, and
the slicing its decryption phase performs (the same order, the same fixed
sizes) recovers exactly those fields from that buffer. -/
theorem C3_hybrid_framing (S : KEMScheme) (A : AEAD)
    (kemCiphertext keyNonce wrappedKey dataNonce dataCiphertext : List Nat)
    (h1 : kemCiphertext.length = S.ciphertextSize)
    (h2 : keyNonce.length = A.nonceSize)
    (h3 : wrappedKey.length = 32 + 16)
    (h4 : dataNonce.length = A.nonceSize) :
    hybridParse S A (hybridSerialize kemCiphertext keyNonce wrappedKey dataNonce dataCiphertext)
      = (kemCiphertext, keyNonce, wrappedKey, dataNonce, dataCiphertext) :=
  hybridParse_hybridSerialize S A kemCiphertext keyNonce wrappedKey dataNonce dataCiphertext
    h1 h2 h3 h4

/-- C3 witness: concrete evaluation of the framing round-trip. -/
theorem C3_hybrid_framing_witness :
    hybridParse (toyKEM 4) (toyAEAD 12 16)
        (hybridSerialize (List.replicate 4 7) (List.replicate 12 0) (List.replicate 48 3)
          (List.replicate 12 2) [9])
      = (List.replicate 4 7, List.replicate 12 0, List.replicate 48 3,
         List.replicate 12 2, [9]) :=
  C3_hybrid_framing (toyKEM 4) (toyAEAD 12 16) (List.replicate 4 7) (List.replicate 12 0)
    (List.replicate 48 3) (List.replicate 12 2) [9] (by decide) (by decide) (by decide)
    (by decide)

/-- C4: for every registered algorithm the serialized ciphertext length is
the deterministic function of the plaintext length and the fixed parameter
sizes: nonce + plaintext + tag for the classic AEADs, KEM ciphertext +
nonce + plaintext + tag for the KEM-only schemes, and KEM ciphertext +
2·nonce + key size + 2·tag + plaintext for the hybrid scheme. -/
theorem C4_ciphertext_length (P : Primitives) (E : Entropy) (data : List Nat)
    (hgcm : P.gcm.Sound) (hch : P.chacha.Sound)
    (hk768 : P.kyber768.Sound) (hk1024 : P.kyber1024.Sound)
    (hn : E.nonce.length = P.gcm.nonceSize) (hnc : E.nonce.length = P.chacha.nonceSize)
    (hkn : E.keyNonce.length = P.gcm.nonceSize) (hkey : E.key.length = 32)
    (hT : P.gcm.tagSize = 16) :
    (∃ r, TestAlgorithm P E "aes256gcm" data = Except.ok r ∧
       r.Encrypted.length = P.gcm.nonceSize + data.length + P.gcm.tagSize) ∧
    (∃ r, TestAlgorithm P E "chacha20poly1305" data = Except.ok r ∧
       r.Encrypted.length = P.chacha.nonceSize + data.length + P.chacha.tagSize) ∧
    (∃ r, TestAlgorithm P E "kyber768" data = Except.ok r ∧
       r.Encrypted.length
         = P.kyber768.ciphertextSize + P.gcm.nonceSize + data.length + P.gcm.tagSize) ∧
    (∃ r, TestAlgorithm P E "kyber1024" data = Except.ok r ∧
       r.Encrypted.length
         = P.kyber1024.ciphertextSize + P.gcm.nonceSize + data.length + P.gcm.tagSize) ∧
    (∃ r, TestAlgorithm P E "hybrid-kyber768-aes256gcm" data = Except.ok r ∧
       r.Encrypted.length
         = P.kyber768.ciphertextSize + 2 * P.gcm.nonceSize + 32 + 2 * P.gcm.tagSize
             + data.length) := by
  refine ⟨⟨_, (TestAlgorithm_aes256gcm P E data).trans
      (testAES256GCM_spec P.gcm hgcm E.key E.nonce data _ hn), ?_⟩,
    ⟨_, (TestAlgorithm_chacha20poly1305 P E data).trans
      (testChaCha20Poly1305_spec P.chacha hch E.key E.nonce data _ hnc), ?_⟩,
    ⟨_, (TestAlgorithm_kyber768 P E data).trans
      (testKyber_spec P.kyber768 P.gcm hk768 hgcm E.kgCoins E.encCoins E.nonce data _ hn),
      ?_⟩,
    ⟨_, (TestAlgorithm_kyber1024 P E data).trans
      (testKyber_spec P.kyber1024 P.gcm hk1024 hgcm E.kgCoins E.encCoins E.nonce data _ hn),
      ?_⟩,
    ⟨_, (TestAlgorithm_hybrid P E data).trans
      (testHybridKyberAES_spec P.kyber768 P.gcm hk768 hgcm E.kgCoins E.key E.encCoins
        E.nonce E.keyNonce data _ hn hkn hkey hT), ?_⟩⟩
  · simp only [List.length_append, hgcm.seal_length, hn]; omega
  · simp only [List.length_append, hch.seal_length, hnc]; omega
  · simp only [List.length_append, hgcm.seal_length, hk768.ct_size, hn]; omega
  · simp only [List.length_append, hgcm.seal_length, hk1024.ct_size, hn]; omega
  · simp only [hybridSerialize, List.length_append, hgcm.seal_length, hk768.ct_size,
      hn, hkn, hkey, hT]
    omega

/-- C4 witness: concrete evaluation of the five length formulas. -/
theorem C4_ciphertext_length_witness :
    (∃ r, TestAlgorithm toyPrimitives toyEntropy "aes256gcm" [5, 5] = Except.ok r ∧
       r.Encrypted.length
         = toyPrimitives.gcm.nonceSize + [5, 5].length + toyPrimitives.gcm.tagSize) ∧
    (∃ r, TestAlgorithm toyPrimitives toyEntropy "chacha20poly1305" [5, 5] = Except.ok r ∧
       r.Encrypted.length
         = toyPrimitives.chacha.nonceSize + [5, 5].length + toyPrimitives.chacha.tagSize) ∧
    (∃ r, TestAlgorithm toyPrimitives toyEntropy "kyber768" [5, 5] = Except.ok r ∧
       r.Encrypted.length
         = toyPrimitives.kyber768.ciphertextSize + toyPrimitives.gcm.nonceSize
             + [5, 5].length + toyPrimitives.gcm.tagSize) ∧
    (∃ r, TestAlgorithm toyPrimitives toyEntropy "kyber1024" [5, 5] = Except.ok r ∧
       r.Encrypted.length
         = toyPrimitives.kyber1024.ciphertextSize + toyPrimitives.gcm.nonceSize
             + [5, 5].length + toyPrimitives.gcm.tagSize) ∧
    (∃ r, TestAlgorithm toyPrimitives toyEntropy "hybrid-kyber768-aes256gcm" [5, 5]
        = Except.ok r ∧
       r.Encrypted.length
         = toyPrimitives.kyber768.ciphertextSize + 2 * toyPrimitives.gcm.nonceSize + 32
             + 2 * toyPrimitives.gcm.tagSize + [5, 5].length) :=
  C4_ciphertext_length toyPrimitives toyEntropy [5, 5]
    (toyAEAD_sound 12 16) (toyAEAD_sound 12 16) (toyKEM_sound 4) (toyKEM_sound 8)
    (by decide) (by decide) (by decide) (by decide) rfl

/-- C5: for a fixed plaintext the hybrid ciphertext is strictly longer
than the KEM-only ciphertext for the same KEM parameter set and strictly
longer than the classic AEAD ciphertext. -/
theorem C5_hybrid_strictly_longer (P : Primitives) (E : Entropy) (data : List Nat)
    (hgcm : P.gcm.Sound) (hk768 : P.kyber768.Sound)
    (hn : E.nonce.length = P.gcm.nonceSize) (hkn : E.keyNonce.length = P.gcm.nonceSize)
    (hkey : E.key.length = 32) (hT : P.gcm.tagSize = 16) :
    ∃ rh rk rc,
      TestAlgorithm P E "hybrid-kyber768-aes256gcm" data = Except.ok rh ∧
      TestAlgorithm P E "kyber768" data = Except.ok rk ∧
      TestAlgorithm P E "aes256gcm" data = Except.ok rc ∧
      rk.Encrypted.length < rh.Encrypted.length ∧
      rc.Encrypted.length < rh.Encrypted.length := by
  refine ⟨_, _, _, (TestAlgorithm_hybrid P E data).trans
      (testHybridKyberAES_spec P.kyber768 P.gcm hk768 hgcm E.kgCoins E.key E.encCoins
        E.nonce E.keyNonce data _ hn hkn hkey hT),
    (TestAlgorithm_kyber768 P E data).trans
      (testKyber_spec P.kyber768 P.gcm hk768 hgcm E.kgCoins E.encCoins E.nonce data _ hn),
    (TestAlgorithm_aes256gcm P E data).trans
      (testAES256GCM_spec P.gcm hgcm E.key E.nonce data _ hn), ?_, ?_⟩
  · simp only [hybridSerialize, List.length_append, hgcm.seal_length, hk768.ct_size,
      hn, hkn, hkey, hT]
    omega
  · simp only [hybridSerialize, List.length_append, hgcm.seal_length, hk768.ct_size,
      hn, hkn, hkey, hT]
    omega

/-- C5 witness: concrete evaluation of the strict length comparison. -/
theorem C5_hybrid_strictly_longer_witness :
    ∃ rh rk rc,
      TestAlgorithm toyPrimitives toyEntropy "hybrid-kyber768-aes256gcm" [8] = Except.ok rh ∧
      TestAlgorithm toyPrimitives toyEntropy "kyber768" [8] = Except.ok rk ∧
      TestAlgorithm toyPrimitives toyEntropy "aes256gcm" [8] = Except.ok rc ∧
      rk.Encrypted.length < rh.Encrypted.length ∧
      rc.Encrypted.length < rh.Encrypted.length :=
  C5_hybrid_strictly_longer toyPrimitives toyEntropy [8]
    (toyAEAD_sound 12 16) (toyKEM_sound 4) (by decide) (by decide) (by decide) rfl

/-- C9: `SetDefaultAlgorithm` validates the name against the corresponding
algorithm list; when the name is not in that list it returns the
"invalid algorithm" error and the settings store is unchanged. -/
theorem C9_setDefault_invalid (algorithm : String) (postQuantum : Bool) (s : Settings)
    (h : algorithm ∉
      ((if postQuantum then ListPostQuantumAlgorithms else ListClassicAlgorithms).map
        Algorithm.Name)) :
    SetDefaultAlgorithm algorithm postQuantum s
      = (s, some ("invalid algorithm: " ++ algorithm)) := by
  cases postQuantum with
  | false =>
    simp only [if_neg, ListClassicAlgorithms, List.map, List.mem_cons, List.not_mem_nil,
      or_false, not_or, Bool.false_eq_true, ite_false] at h
    obtain ⟨h1, h2⟩ := h
    have hv : ListClassicAlgorithms.any (fun algo => algo.Name == algorithm) = false := by
      simp only [ListClassicAlgorithms, List.any_cons, List.any_nil, Bool.or_false,
        Bool.or_eq_false_iff, beq_eq_false_iff_ne, ne_eq]
      exact ⟨fun hh => h1 hh.symm, fun hh => h2 hh.symm⟩
    simp [SetDefaultAlgorithm, hv]
  | true =>
    simp only [if_pos, ListPostQuantumAlgorithms, List.map, List.mem_cons, List.not_mem_nil,
      or_false, not_or, ite_true] at h
    obtain ⟨h1, h2, h3⟩ := h
    have hv : ListPostQuantumAlgorithms.any (fun algo => algo.Name == algorithm) = false := by
      simp only [ListPostQuantumAlgorithms, List.any_cons, List.any_nil, Bool.or_false,
        Bool.or_eq_false_iff, beq_eq_false_iff_ne, ne_eq]
      exact ⟨fun hh => h1 hh.symm, fun hh => h2 hh.symm, fun hh => h3 hh.symm⟩
    simp [SetDefaultAlgorithm, hv]

/-- C9 witness: concrete evaluation on an invalid post-quantum name. -/
theorem C9_setDefault_invalid_witness :
    SetDefaultAlgorithm "nope" true { defaultClassic := none, defaultPostQuantum := none }
      = ({ defaultClassic := none, defaultPostQuantum := none },
         some ("invalid algorithm: " ++ "nope")) :=
  C9_setDefault_invalid "nope" true
    { defaultClassic := none, defaultPostQuantum := none } (by decide)

/-- C6: an AEAD opening failure, a KEM decapsulation failure, or a
recovered plaintext different from the input are reported as a non-fatal
outcome by every executor's decryption phase: the result object is
returned with `DecryptionSuccessful = false` and no error, uniformly
across the classic, KEM-only and hybrid executors. -/
theorem C6_soft_failures (S : KEMScheme) (A : AEAD) :
    (∀ key buf data r, A.nonceSize ≤ buf.length →
        A.Open key (buf.take A.nonceSize) (buf.drop A.nonceSize) = none →
        classicSelfDecrypt A key buf data r
          = Except.ok { r with DecryptionSuccessful := false }) ∧
    (∀ key buf data r plaintext, A.nonceSize ≤ buf.length →
        A.Open key (buf.take A.nonceSize) (buf.drop A.nonceSize) = some plaintext →
        plaintext ≠ data →
        classicSelfDecrypt A key buf data r
          = Except.ok { r with DecryptionSuccessful := false }) ∧
    (∀ priv buf data r, S.ciphertextSize ≤ buf.length →
        S.decaps priv (buf.take S.ciphertextSize) = none →
        kyberSelfDecrypt S A priv buf data r
          = Except.ok { r with DecryptionSuccessful := false }) ∧
    (∀ priv buf data r secret, S.ciphertextSize ≤ buf.length →
        S.decaps priv (buf.take S.ciphertextSize) = some secret →
        A.nonceSize ≤ (buf.drop S.ciphertextSize).length →
        A.Open secret ((buf.drop S.ciphertextSize).take A.nonceSize)
            ((buf.drop S.ciphertextSize).drop A.nonceSize) = none →
        kyberSelfDecrypt S A priv buf data r
          = Except.ok { r with DecryptionSuccessful := false }) ∧
    (∀ priv buf data r secret plaintext, S.ciphertextSize ≤ buf.length →
        S.decaps priv (buf.take S.ciphertextSize) = some secret →
        A.nonceSize ≤ (buf.drop S.ciphertextSize).length →
        A.Open secret ((buf.drop S.ciphertextSize).take A.nonceSize)
            ((buf.drop S.ciphertextSize).drop A.nonceSize) = some plaintext →
        plaintext ≠ data →
        kyberSelfDecrypt S A priv buf data r
          = Except.ok { r with DecryptionSuccessful := false }) ∧
    (∀ priv buf data r, S.ciphertextSize ≤ buf.length →
        S.decaps priv (buf.take S.ciphertextSize) = none →
        hybridSelfDecrypt S A priv buf data r
          = Except.ok { r with DecryptionSuccessful := false }) ∧
    (∀ priv buf data r secret remaining remaining1,
        remaining = buf.drop S.ciphertextSize →
        remaining1 = remaining.drop A.nonceSize →
        S.ciphertextSize ≤ buf.length →
        S.decaps priv (buf.take S.ciphertextSize) = some secret →
        A.nonceSize ≤ remaining.length →
        32 + 16 ≤ remaining1.length →
        A.Open secret (remaining.take A.nonceSize) (remaining1.take (32 + 16)) = none →
        hybridSelfDecrypt S A priv buf data r
          = Except.ok { r with DecryptionSuccessful := false }) ∧
    (∀ priv buf data r secret remaining remaining1 remaining2 decryptedAesKey,
        remaining = buf.drop S.ciphertextSize →
        remaining1 = remaining.drop A.nonceSize →
        remaining2 = remaining1.drop (32 + 16) →
        S.ciphertextSize ≤ buf.length →
        S.decaps priv (buf.take S.ciphertextSize) = some secret →
        A.nonceSize ≤ remaining.length →
        32 + 16 ≤ remaining1.length →
        A.Open secret (remaining.take A.nonceSize) (remaining1.take (32 + 16))
          = some decryptedAesKey →
        A.nonceSize ≤ remaining2.length →
        A.Open ((secret ++ decryptedAesKey).take 32) (remaining2.take A.nonceSize)
            (remaining2.drop A.nonceSize) = none →
        hybridSelfDecrypt S A priv buf data r
          = Except.ok { r with DecryptionSuccessful := false }) ∧
    (∀ priv buf data r secret remaining remaining1 remaining2 decryptedAesKey plaintext,
        remaining = buf.drop S.ciphertextSize →
        remaining1 = remaining.drop A.nonceSize →
        remaining2 = remaining1.drop (32 + 16) →
        S.ciphertextSize ≤ buf.length →
        S.decaps priv (buf.take S.ciphertextSize) = some secret →
        A.nonceSize ≤ remaining.length →
        32 + 16 ≤ remaining1.length →
        A.Open secret (remaining.take A.nonceSize) (remaining1.take (32 + 16))
          = some decryptedAesKey →
        A.nonceSize ≤ remaining2.length →
        A.Open ((secret ++ decryptedAesKey).take 32) (remaining2.take A.nonceSize)
            (remaining2.drop A.nonceSize) = some plaintext →
        plaintext ≠ data →
        hybridSelfDecrypt S A priv buf data r
          = Except.ok { r with DecryptionSuccessful := false }) := by
  refine ⟨?_, ?_, ?_, ?_, ?_, ?_, ?_, ?_, ?_⟩
  · intro key buf data r hlen hopen
    simp only [classicSelfDecrypt, if_neg (by omega : ¬ buf.length < A.nonceSize), hopen]
  · intro key buf data r plaintext hlen hopen hne
    simp only [classicSelfDecrypt, if_neg (by omega : ¬ buf.length < A.nonceSize), hopen,
      beq_eq_false_iff_ne.mpr hne]
  · intro priv buf data r hlen hdec
    simp only [kyberSelfDecrypt, if_neg (by omega : ¬ buf.length < S.ciphertextSize), hdec]
  · intro priv buf data r secret hlen hdec hrem hopen
    simp only [kyberSelfDecrypt, if_neg (by omega : ¬ buf.length < S.ciphertextSize), hdec,
      if_neg (by omega : ¬ (buf.drop S.ciphertextSize).length < A.nonceSize), hopen]
  · intro priv buf data r secret plaintext hlen hdec hrem hopen hne
    simp only [kyberSelfDecrypt, if_neg (by omega : ¬ buf.length < S.ciphertextSize), hdec,
      if_neg (by omega : ¬ (buf.drop S.ciphertextSize).length < A.nonceSize), hopen,
      beq_eq_false_iff_ne.mpr hne]
  · intro priv buf data r hlen hdec
    simp only [hybridSelfDecrypt, if_neg (by omega : ¬ buf.length < S.ciphertextSize), hdec]
  · intro priv buf data r secret remaining remaining1 e1 e2 hlen hdec hrem hrem1 hopen
    subst e1; subst e2
    simp only [hybridSelfDecrypt, if_neg (by omega : ¬ buf.length < S.ciphertextSize), hdec,
      if_neg (by omega : ¬ (buf.drop S.ciphertextSize).length < A.nonceSize),
      if_neg (by omega :
        ¬ ((buf.drop S.ciphertextSize).drop A.nonceSize).length < 32 + 16), hopen]
  · intro priv buf data r secret remaining remaining1 remaining2 decryptedAesKey
      e1 e2 e3 hlen hdec hrem hrem1 hopenKey hrem2 hopenData
    subst e1; subst e2; subst e3
    simp only [hybridSelfDecrypt, if_neg (by omega : ¬ buf.length < S.ciphertextSize), hdec,
      if_neg (by omega : ¬ (buf.drop S.ciphertextSize).length < A.nonceSize),
      if_neg (by omega :
        ¬ ((buf.drop S.ciphertextSize).drop A.nonceSize).length < 32 + 16), hopenKey,
      if_neg (by omega :
        ¬ (((buf.drop S.ciphertextSize).drop A.nonceSize).drop (32 + 16)).length
            < A.nonceSize), hopenData]
  · intro priv buf data r secret remaining remaining1 remaining2 decryptedAesKey plaintext
      e1 e2 e3 hlen hdec hrem hrem1 hopenKey hrem2 hopenData hne
    subst e1; subst e2; subst e3
    simp only [hybridSelfDecrypt, if_neg (by omega : ¬ buf.length < S.ciphertextSize), hdec,
      if_neg (by omega : ¬ (buf.drop S.ciphertextSize).length < A.nonceSize),
      if_neg (by omega :
        ¬ ((buf.drop S.ciphertextSize).drop A.nonceSize).length < 32 + 16), hopenKey,
      if_neg (by omega :
        ¬ (((buf.drop S.ciphertextSize).drop A.nonceSize).drop (32 + 16)).length
            < A.nonceSize), hopenData,
      beq_eq_false_iff_ne.mpr hne]

/-- C6 witness: a concrete AEAD authentication failure in the classic
executor's decryption phase yields the soft result, not an error. -/
theorem C6_soft_failures_witness :
    classicSelfDecrypt (toyAEAD 1 2) [] [0, 5, 5] []
        { Algorithm := "aes256gcm", Encrypted := [0, 5, 5], DecryptionSuccessful := true }
      = Except.ok { Algorithm := "aes256gcm", Encrypted := [0, 5, 5],
                    DecryptionSuccessful := false } :=
  (C6_soft_failures (toyKEM 2) (toyAEAD 1 2)).1 [] [0, 5, 5] []
    { Algorithm := "aes256gcm", Encrypted := [0, 5, 5], DecryptionSuccessful := true }
    (by decide) (by decide)

/-- C7: whenever the buffer remaining during a decryption self-test is
shorter than the next structurally required fixed-size field, the
executor aborts with a fatal error (nil result, non-nil error) rather
than a soft unsuccessful result — at every length check of the classic,
KEM-only and hybrid decryption phases. -/
theorem C7_framing_fatal (S : KEMScheme) (A : AEAD) :
    (∀ key buf data r, buf.length < A.nonceSize →
        classicSelfDecrypt A key buf data r = Except.error "ciphertext too short") ∧
    (∀ priv buf data r, buf.length < S.ciphertextSize →
        kyberSelfDecrypt S A priv buf data r = Except.error "ciphertext too short") ∧
    (∀ priv buf data r secret, S.ciphertextSize ≤ buf.length →
        S.decaps priv (buf.take S.ciphertextSize) = some secret →
        (buf.drop S.ciphertextSize).length < A.nonceSize →
        kyberSelfDecrypt S A priv buf data r
          = Except.error "remaining ciphertext too short") ∧
    (∀ priv buf data r, buf.length < S.ciphertextSize →
        hybridSelfDecrypt S A priv buf data r = Except.error "ciphertext too short") ∧
    (∀ priv buf data r secret, S.ciphertextSize ≤ buf.length →
        S.decaps priv (buf.take S.ciphertextSize) = some secret →
        (buf.drop S.ciphertextSize).length < A.nonceSize →
        hybridSelfDecrypt S A priv buf data r
          = Except.error "remaining ciphertext too short") ∧
    (∀ priv buf data r secret, S.ciphertextSize ≤ buf.length →
        S.decaps priv (buf.take S.ciphertextSize) = some secret →
        A.nonceSize ≤ (buf.drop S.ciphertextSize).length →
        ((buf.drop S.ciphertextSize).drop A.nonceSize).length < 32 + 16 →
        hybridSelfDecrypt S A priv buf data r
          = Except.error "remaining ciphertext too short for AES key") ∧
    (∀ priv buf data r secret decryptedAesKey, S.ciphertextSize ≤ buf.length →
        S.decaps priv (buf.take S.ciphertextSize) = some secret →
        A.nonceSize ≤ (buf.drop S.ciphertextSize).length →
        32 + 16 ≤ ((buf.drop S.ciphertextSize).drop A.nonceSize).length →
        A.Open secret ((buf.drop S.ciphertextSize).take A.nonceSize)
            (((buf.drop S.ciphertextSize).drop A.nonceSize).take (32 + 16))
          = some decryptedAesKey →
        (((buf.drop S.ciphertextSize).drop A.nonceSize).drop (32 + 16)).length
          < A.nonceSize →
        hybridSelfDecrypt S A priv buf data r
          = Except.error "remaining ciphertext too short for data nonce") := by
  refine ⟨?_, ?_, ?_, ?_, ?_, ?_, ?_⟩
  · intro key buf data r hlen
    simp only [classicSelfDecrypt, if_pos hlen]
  · intro priv buf data r hlen
    simp only [kyberSelfDecrypt, if_pos hlen]
  · intro priv buf data r secret hlen hdec hshort
    simp only [kyberSelfDecrypt, if_neg (by omega : ¬ buf.length < S.ciphertextSize), hdec,
      if_pos hshort]
  · intro priv buf data r hlen
    simp only [hybridSelfDecrypt, if_pos hlen]
  · intro priv buf data r secret hlen hdec hshort
    simp only [hybridSelfDecrypt, if_neg (by omega : ¬ buf.length < S.ciphertextSize), hdec,
      if_pos hshort]
  · intro priv buf data r secret hlen hdec hrem hshort
    simp only [hybridSelfDecrypt, if_neg (by omega : ¬ buf.length < S.ciphertextSize), hdec,
      if_neg (by omega : ¬ (buf.drop S.ciphertextSize).length < A.nonceSize),
      if_pos hshort]
  · intro priv buf data r secret decryptedAesKey hlen hdec hrem hrem1 hopenKey hshort
    simp only [hybridSelfDecrypt, if_neg (by omega : ¬ buf.length < S.ciphertextSize), hdec,
      if_neg (by omega : ¬ (buf.drop S.ciphertextSize).length < A.nonceSize),
      if_neg (by omega :
        ¬ ((buf.drop S.ciphertextSize).drop A.nonceSize).length < 32 + 16), hopenKey,
      if_pos hshort]

/-- C7 witness: a concrete truncated buffer makes the classic decryption
phase return the fatal framing error. -/
theorem C7_framing_fatal_witness :
    classicSelfDecrypt (toyAEAD 12 16) [] [] []
        { Algorithm := "aes256gcm", Encrypted := [], DecryptionSuccessful := false }
      = Except.error "ciphertext too short" :=
  (C7_framing_fatal (toyKEM 4) (toyAEAD 12 16)).1 [] [] []
    { Algorithm := "aes256gcm", Encrypted := [], DecryptionSuccessful := false }
    (by decide)

/-- C8: the hybrid composer derives the payload key as the first 32 bytes
of `sharedSecret ∥ symmetricKey` on the encryption side (the data
ciphertext field is sealed under exactly that key), and the decryption
side recomputes the identical key: decapsulating the KEM-ciphertext field
returns the same shared secret, unwrapping the wrapped-key field under it
returns the same symmetric key, and the self-test then succeeds. -/
theorem C8_payload_key_derivation (S : KEMScheme) (A : AEAD) (hS : S.Sound) (hA : A.Sound)
    (kgCoins aesKey encCoins nonce aesKeyNonce data : List Nat) (r : TestResult)
    (hn : nonce.length = A.nonceSize) (hkn : aesKeyNonce.length = A.nonceSize)
    (hkey : aesKey.length = 32) (hT : A.tagSize = 16) :
    ∃ res, testHybridKyberAES S A kgCoins aesKey encCoins nonce aesKeyNonce data r
        = Except.ok res ∧
      (hybridParse S A res.Encrypted).2.2.2.2
        = A.Seal (specPayloadKey (S.encaps (S.keyGen kgCoins).1 encCoins).2 aesKey)
            nonce data ∧
      S.decaps (S.keyGen kgCoins).2 (hybridParse S A res.Encrypted).1
        = some (S.encaps (S.keyGen kgCoins).1 encCoins).2 ∧
      A.Open (S.encaps (S.keyGen kgCoins).1 encCoins).2 (hybridParse S A res.Encrypted).2.1
          (hybridParse S A res.Encrypted).2.2.1
        = some aesKey ∧
      res.DecryptionSuccessful = true := by
  have hparse := hybridParse_hybridSerialize S A (S.encaps (S.keyGen kgCoins).1 encCoins).1
    aesKeyNonce (A.Seal (S.encaps (S.keyGen kgCoins).1 encCoins).2 aesKeyNonce aesKey) nonce
    (A.Seal (((S.encaps (S.keyGen kgCoins).1 encCoins).2 ++ aesKey).take 32) nonce data)
    (hS.ct_size _ _) hkn (by rw [hA.seal_length, hkey, hT]) hn
  refine ⟨_, testHybridKyberAES_spec S A hS hA kgCoins aesKey encCoins nonce aesKeyNonce
    data r hn hkn hkey hT, ?_, ?_, ?_, rfl⟩
  · dsimp only
    rw [hparse]
    rfl
  · dsimp only
    rw [hparse]
    exact hS.decaps_encaps kgCoins encCoins
  · dsimp only
    rw [hparse]
    exact hA.open_seal _ aesKeyNonce aesKey hkn

/-- C8 witness: concrete evaluation of the payload-key derivation facts. -/
theorem C8_payload_key_derivation_witness :
    ∃ res, testHybridKyberAES (toyKEM 4) (toyAEAD 12 16) [3] (List.replicate 32 0) [4]
        (List.replicate 12 0) (List.replicate 12 1) [1, 2]
        { Algorithm := "hybrid-kyber768-aes256gcm", Encrypted := [],
          DecryptionSuccessful := false }
        = Except.ok res ∧
      (hybridParse (toyKEM 4) (toyAEAD 12 16) res.Encrypted).2.2.2.2
        = (toyAEAD 12 16).Seal
            (specPayloadKey ((toyKEM 4).encaps ((toyKEM 4).keyGen [3]).1 [4]).2
              (List.replicate 32 0))
            (List.replicate 12 0) [1, 2] ∧
      (toyKEM 4).decaps ((toyKEM 4).keyGen [3]).2
          (hybridParse (toyKEM 4) (toyAEAD 12 16) res.Encrypted).1
        = some ((toyKEM 4).encaps ((toyKEM 4).keyGen [3]).1 [4]).2 ∧
      (toyAEAD 12 16).Open ((toyKEM 4).encaps ((toyKEM 4).keyGen [3]).1 [4]).2
          (hybridParse (toyKEM 4) (toyAEAD 12 16) res.Encrypted).2.1
          (hybridParse (toyKEM 4) (toyAEAD 12 16) res.Encrypted).2.2.1
        = some (List.replicate 32 0) ∧
      res.DecryptionSuccessful = true :=
  C8_payload_key_derivation (toyKEM 4) (toyAEAD 12 16) (toyKEM_sound 4)
    (toyAEAD_sound 12 16) [3] (List.replicate 32 0) [4] (List.replicate 12 0)
    (List.replicate 12 1) [1, 2]
    { Algorithm := "hybrid-kyber768-aes256gcm", Encrypted := [],
      DecryptionSuccessful := false }
    (by decide) (by decide) (by decide) rfl

/-- C10: when the KEM shared secret is exactly 32 bytes (as for Kyber-768)
the derived payload key is the shared secret alone — the independently
generated symmetric key has no influence — so for two different symmetric
keys and the same shared secret, plaintext and nonces, the
`dataNonce ∥ dataCiphertext` portion of the serialized output is
identical. -/
theorem C10_symmetric_key_no_influence (S : KEMScheme) (A : AEAD) (hS : S.Sound)
    (hA : A.Sound) (kgCoins encCoins nonce aesKeyNonce data k1 k2 : List Nat)
    (r : TestResult) (hss : S.sharedSecretSize = 32)
    (hn : nonce.length = A.nonceSize) (hkn : aesKeyNonce.length = A.nonceSize)
    (hk1 : k1.length = 32) (hk2 : k2.length = 32) (hne : k1 ≠ k2) (hT : A.tagSize = 16) :
    specPayloadKey (S.encaps (S.keyGen kgCoins).1 encCoins).2 k1
      = (S.encaps (S.keyGen kgCoins).1 encCoins).2 ∧
    specPayloadKey (S.encaps (S.keyGen kgCoins).1 encCoins).2 k2
      = (S.encaps (S.keyGen kgCoins).1 encCoins).2 ∧
    ∃ res1 res2,
      testHybridKyberAES S A kgCoins k1 encCoins nonce aesKeyNonce data r = Except.ok res1 ∧
      testHybridKyberAES S A kgCoins k2 encCoins nonce aesKeyNonce data r = Except.ok res2 ∧
      res1.Encrypted.drop (S.ciphertextSize + A.nonceSize + (32 + 16))
        = res2.Encrypted.drop (S.ciphertextSize + A.nonceSize + (32 + 16)) := by
  have hsslen : ((S.encaps (S.keyGen kgCoins).1 encCoins).2).length = 32 := by
    rw [hS.ss_size, hss]
  have hdrop : ∀ a b c rest : List Nat, a.length = S.ciphertextSize →
      b.length = A.nonceSize → c.length = 32 + 16 →
      (a ++ (b ++ (c ++ rest))).drop (S.ciphertextSize + A.nonceSize + (32 + 16)) = rest := by
    intro a b c rest ha hb hc
    have e : S.ciphertextSize + A.nonceSize + (32 + 16)
        = a.length + (b.length + (c.length + 0)) := by omega
    rw [e, List.drop_append, List.drop_append, List.drop_append, List.drop_zero]
  refine ⟨List.take_left' hsslen, List.take_left' hsslen, _, _,
    testHybridKyberAES_spec S A hS hA kgCoins k1 encCoins nonce aesKeyNonce data r
      hn hkn hk1 hT,
    testHybridKyberAES_spec S A hS hA kgCoins k2 encCoins nonce aesKeyNonce data r
      hn hkn hk2 hT, ?_⟩
  dsimp only
  rw [hybridSerialize, hybridSerialize,
    hdrop _ _ _ _ (hS.ct_size _ _) hkn (by rw [hA.seal_length, hk1, hT]),
    hdrop _ _ _ _ (hS.ct_size _ _) hkn (by rw [hA.seal_length, hk2, hT]),
    List.take_left' hsslen, List.take_left' hsslen]

/-- C10 witness: concrete evaluation with two different 32-byte symmetric
keys. -/
theorem C10_symmetric_key_no_influence_witness :
    specPayloadKey ((toyKEM 4).encaps ((toyKEM 4).keyGen [3]).1 [4]).2 (List.replicate 32 0)
      = ((toyKEM 4).encaps ((toyKEM 4).keyGen [3]).1 [4]).2 ∧
    specPayloadKey ((toyKEM 4).encaps ((toyKEM 4).keyGen [3]).1 [4]).2 (List.replicate 32 2)
      = ((toyKEM 4).encaps ((toyKEM 4).keyGen [3]).1 [4]).2 ∧
    ∃ res1 res2,
      testHybridKyberAES (toyKEM 4) (toyAEAD 12 16) [3] (List.replicate 32 0) [4]
          (List.replicate 12 0) (List.replicate 12 1) [6]
          { Algorithm := "hybrid-kyber768-aes256gcm", Encrypted := [],
            DecryptionSuccessful := false }
        = Except.ok res1 ∧
      testHybridKyberAES (toyKEM 4) (toyAEAD 12 16) [3] (List.replicate 32 2) [4]
          (List.replicate 12 0) (List.replicate 12 1) [6]
          { Algorithm := "hybrid-kyber768-aes256gcm", Encrypted := [],
            DecryptionSuccessful := false }
        = Except.ok res2 ∧
      res1.Encrypted.drop ((toyKEM 4).ciphertextSize + (toyAEAD 12 16).nonceSize + (32 + 16))
        = res2.Encrypted.drop
            ((toyKEM 4).ciphertextSize + (toyAEAD 12 16).nonceSize + (32 + 16)) :=
  C10_symmetric_key_no_influence (toyKEM 4) (toyAEAD 12 16) (toyKEM_sound 4)
    (toyAEAD_sound 12 16) [3] [4] (List.replicate 12 0) (List.replicate 12 1) [6]
    (List.replicate 32 0) (List.replicate 32 2)
    { Algorithm := "hybrid-kyber768-aes256gcm", Encrypted := [],
      DecryptionSuccessful := false }
    rfl (by decide) (by decide) (by decide) (by decide) (by decide) rfl

end IpsecVpn
